import Mathlib

/-!
Shallow embedding of `src/entrada.py` (SBBD — Spatio-Temporal Hotspot Indexing),
the Flask routing layer over a PostGIS-backed change-detection engine.

Pure request-handling logic (parameter truthiness, guards, filter/sort/limit
query building, response shaping) is translated directly from the Python
source.  The PostGIS stored function `fn_extrair_hotspots` is not part of the
visible source; where a claim depends on it, it is modelled from the spec and
marked as such in its doc comment.
-/

namespace SBBD

/-- Python truthiness of an `Optional[int]` value: `None` and `0` are falsy. -/
def pyTruthy : Option Int → Bool
  | none => false
  | some n => n != 0

/-- `ALLOWED_EXTENSIONS = {"tif", "tiff", "png", "jpg", "jpeg"}` from the source. -/
def ALLOWED_EXTENSIONS : List String := ["tif", "tiff", "png", "jpg", "jpeg"]

/-- `str.lower()`, character by character. -/
def lowerStr (s : String) : String :=
  String.mk (s.data.map Char.toLower)

/-- `filename.rsplit(".", 1)[1]`: the text after the last dot. -/
def extAfterLastDot (filename : String) : String :=
  String.mk ((filename.data.splitOn '.').getLastD [])

/-- `allowed_file` from the source:
`"." in filename and filename.rsplit(".", 1)[1].lower() in ALLOWED_EXTENSIONS`. -/
def allowed_file (filename : String) : Bool :=
  filename.data.contains '.' && ALLOWED_EXTENSIONS.contains (lowerStr (extAfterLastDot filename))

/-- Python `s.isdigit()` for ASCII digit strings: nonempty and all digits. -/
def pyIsdigit (s : String) : Bool :=
  s.data.length != 0 && s.data.all Char.isDigit

/-- A CRS as seen through rasterio: `to_epsg()` may fail (`None`). -/
structure CRSInfo where
  name : String
  epsg : Option Int
deriving Repr, DecidableEq

/-- What `rasterio.open` exposes of a raster file (the fields the code reads). -/
structure RasterioInfo where
  width : Nat
  height : Nat
  count : Nat
  driver : String
  crs : Option CRSInfo
deriving Repr, DecidableEq

/-- What `PIL.Image.open` exposes of an image file (the fields the code reads). -/
structure PillowInfo where
  width : Nat
  height : Nat
  format : Option String
  bands : Nat
deriving Repr, DecidableEq

/-- How the file on disk decodes: rasterio succeeds, or rasterio raises and
Pillow succeeds (the `except` fallback branch of `extract_metadata`). -/
inductive FileReadResult
  | rasterio (info : RasterioInfo)
  | pillow (img : PillowInfo)
deriving Repr, DecidableEq

/-- The metadata dict fields consumed downstream by `upload`. -/
structure Metadata where
  largura : Nat
  altura : Nat
  bandas : Nat
  formato : String
  srid : Option Int
deriving Repr, DecidableEq

/-- Python `x or y` for an optional string (`None` and `""` are falsy). -/
def pyStrOr (x : Option String) (y : String) : String :=
  match x with
  | none => y
  | some s => if s = "" then y else s

/-- `extract_metadata` from the source: rasterio branch records
`srid = src.crs.to_epsg() if src.crs else 0`; the Pillow fallback records
`srid = 0`. -/
def extract_metadata : FileReadResult → Metadata
  | .rasterio info =>
      { largura := info.width
        altura := info.height
        bandas := info.count
        formato := info.driver
        srid := match info.crs with
                | some c => c.epsg
                | none => some 0 }
  | .pillow img =>
      { largura := img.width
        altura := img.height
        bandas := img.bands
        formato := pyStrOr img.format "UNKNOWN"
        srid := some 0 }

/-- The srid value `upload` inserts into the store:
`meta.get("srid", 0) or 0` (both `None` and `0` collapse to `0`). -/
def storedSrid (m : Metadata) : Int :=
  match m.srid with
  | none => 0
  | some n => if n = 0 then 0 else n

/-- One row of the `hotspot_deltas` table; `G` is the (opaque) geometry type. -/
structure HotspotRow (G : Type) where
  id : Int
  ano_inicio : Int
  ano_fim : Int
  classe_origem : Int
  classe_destino : Int
  codigo_transicao : Int
  area_ha : ℚ
  geom : G
  data_processamento : String
deriving Repr, DecidableEq

/-- One row of the `legenda_classes` table. -/
structure LegendRow where
  codigo : Int
  nome : String
  cor_hex : String
deriving Repr, DecidableEq

/-- The WHERE clause built by the query routes: each condition is appended
only when the request parameter is Python-truthy (`if codigo:` etc.). -/
def rowMatches {G : Type} (codigo ano_ini ano_fim : Option Int) (r : HotspotRow G) : Bool :=
  (!pyTruthy codigo || r.codigo_transicao == codigo.getD 0) &&
  (!pyTruthy ano_ini || decide (ano_ini.getD 0 ≤ r.ano_inicio)) &&
  (!pyTruthy ano_fim || decide (r.ano_fim ≤ ano_fim.getD 0))

/-- `ORDER BY area_ha DESC`: descending order on `area_ha`. -/
def areaGe {G : Type} (a b : HotspotRow G) : Prop := b.area_ha ≤ a.area_ha

instance {G : Type} : DecidableRel (areaGe (G := G)) :=
  fun a b => inferInstanceAs (Decidable (b.area_ha ≤ a.area_ha))

instance {G : Type} : IsTotal (HotspotRow G) (areaGe (G := G)) :=
  ⟨fun a b => le_total b.area_ha a.area_ha⟩

instance {G : Type} : IsTrans (HotspotRow G) (areaGe (G := G)) :=
  ⟨fun _ _ _ h1 h2 => le_trans h2 h1⟩

/-- The sort performed by `ORDER BY hd.area_ha DESC`. -/
def sortByAreaDesc {G : Type} (l : List (HotspotRow G)) : List (HotspotRow G) :=
  l.insertionSort (areaGe (G := G))

/-- `LEFT JOIN legenda_classes l ON l.codigo = hd.classe_*`: first matching row. -/
def legendLookup (legend : List LegendRow) (c : Int) : Option LegendRow :=
  legend.find? (fun l => l.codigo == c)

/-- One dict of the `/hotspots` JSON response (the SELECT list of the route;
geometry is not selected there). -/
structure HotspotView where
  id : Int
  ano_inicio : Int
  ano_fim : Int
  classe_origem : Int
  classe_destino : Int
  codigo_transicao : Int
  area_ha : ℚ
  nome_origem : String
  nome_destino : String
  cor_origem : Option String
  cor_destino : Option String
  data_processamento : String
deriving Repr, DecidableEq

/-- Shapes one joined row of the `/hotspots` query:
`COALESCE(lo.nome, 'Desconhecida')` and the bare `cor_hex` columns. -/
def toView {G : Type} (legend : List LegendRow) (r : HotspotRow G) : HotspotView :=
  { id := r.id
    ano_inicio := r.ano_inicio
    ano_fim := r.ano_fim
    classe_origem := r.classe_origem
    classe_destino := r.classe_destino
    codigo_transicao := r.codigo_transicao
    area_ha := r.area_ha
    nome_origem := ((legendLookup legend r.classe_origem).map LegendRow.nome).getD "Desconhecida"
    nome_destino := ((legendLookup legend r.classe_destino).map LegendRow.nome).getD "Desconhecida"
    cor_origem := (legendLookup legend r.classe_origem).map LegendRow.cor_hex
    cor_destino := (legendLookup legend r.classe_destino).map LegendRow.cor_hex
    data_processamento := r.data_processamento }

/-- The `/hotspots` route: filter by truthy parameters, `ORDER BY area_ha DESC`,
`LIMIT` (request default 100), one JSON dict per row. -/
def hotspots {G : Type} (store : List (HotspotRow G)) (legend : List LegendRow)
    (codigo ano_ini ano_fim limit : Option Int) : List HotspotView :=
  ((sortByAreaDesc (store.filter (rowMatches codigo ano_ini ano_fim))).take
    (limit.getD 100).toNat).map (toView legend)

/-- One GeoJSON feature of the `/hotspots/geojson` response: the geometry is
`ST_Simplify(hd.geom, tol)`; the properties are copied from the joined row. -/
structure Feature (G : Type) where
  geometry : G
  id : Int
  ano_inicio : Int
  ano_fim : Int
  classe_origem : Int
  classe_destino : Int
  codigo_transicao : Int
  area_ha : ℚ
  nome_origem : String
  nome_destino : String
deriving Repr, DecidableEq

/-- The `FeatureCollection` built by `json_build_object` in the route;
`COALESCE(json_agg(...), '[]')` makes `features` the empty list when the
subquery returns no row. -/
structure FeatureCollection (G : Type) where
  features : List (Feature G)
deriving Repr, DecidableEq

/-- Shapes one joined row into a feature; `simplify` models the opaque
`ST_Simplify`, applied to the geometry column only. -/
def toFeature {G : Type} (simplify : ℚ → G → G) (tol : ℚ) (legend : List LegendRow)
    (r : HotspotRow G) : Feature G :=
  { geometry := simplify tol r.geom
    id := r.id
    ano_inicio := r.ano_inicio
    ano_fim := r.ano_fim
    classe_origem := r.classe_origem
    classe_destino := r.classe_destino
    codigo_transicao := r.codigo_transicao
    area_ha := r.area_ha
    nome_origem := ((legendLookup legend r.classe_origem).map LegendRow.nome).getD "Desconhecida"
    nome_destino := ((legendLookup legend r.classe_destino).map LegendRow.nome).getD "Desconhecida" }

/-- The `/hotspots/geojson` route: same truthy filters, `ORDER BY area_ha DESC
LIMIT` (request default 5000) in the subquery, `ST_Simplify` with the request
tolerance (default 0.001), `json_agg` into a FeatureCollection. -/
def hotspots_geojson {G : Type} (simplify : ℚ → G → G) (store : List (HotspotRow G))
    (legend : List LegendRow) (codigo ano_ini ano_fim limit : Option Int)
    (tol : Option ℚ) : FeatureCollection G :=
  ⟨((sortByAreaDesc (store.filter (rowMatches codigo ano_ini ano_fim))).take
      (limit.getD 5000).toNat).map (toFeature simplify (tol.getD (1 / 1000)) legend)⟩

/-- A flash message as issued by the routes: category "success" or "error". -/
inductive Flash
  | success (msg : String)
  | error (msg : String)
deriving Repr, DecidableEq

/-- The success flash of `/processar-delta` for a count of `n` hotspots. -/
def deltaSuccessMsg (n : Nat) : String :=
  "Detecção concluída! " ++ toString n ++ " hotspot(s) de mudança encontrado(s)."

/-- The error flash of `/processar-delta` when the processing raises `e`. -/
def deltaErrorMsg (e : String) : String :=
  "Erro no processamento: " ++ e

/-- The `/processar-delta` route.  `run` stands for the body of the `try`
block (the call of `fn_extrair_hotspots` on the live store); it returns the
resulting store state and either the fetched count or the raised exception
message.  The guards mirror `if not t1_id or not t2_id` and
`if t1_id == t2_id` from the source. -/
def processar_delta {G : Type}
    (run : Int → Int → List (HotspotRow G) → List (HotspotRow G) × Except String Nat)
    (t1_id t2_id : Option Int) (store : List (HotspotRow G)) :
    List (HotspotRow G) × Flash :=
  if !pyTruthy t1_id || !pyTruthy t2_id then
    (store, .error "Selecione dois rasters para comparar.")
  else if t1_id == t2_id then
    (store, .error "Selecione dois rasters diferentes.")
  else
    match run (t1_id.getD 0) (t2_id.getD 0) store with
    | (s, .ok n) => (s, .success (deltaSuccessMsg n))
    | (s, .error e) => (s, .error (deltaErrorMsg e))

/-- The error kinds of spec §7. -/
inductive EngineError
  | decodeError
  | missingProjectionError
  | projectionMismatchError
  | disjointExtentError
  | resourceExhausted
  | aborted
deriving Repr, DecidableEq

/-- Modelled from the spec: the pipeline stages of `fn_extrair_hotspots`
(classification, vectorization, measurement, simplification), whose body is
the opaque PostGIS function and not in `src/`.  Each stage either fails or
contributes hotspot rows; a failing stage aborts the whole run. -/
def runStages {G : Type} :
    List (Except EngineError (List (HotspotRow G))) →
    Except EngineError (List (HotspotRow G))
  | [] => .ok []
  | .error e :: _ => .error e
  | .ok rows :: rest =>
      match runStages rest with
      | .error e => .error e
      | .ok more => .ok (rows ++ more)

/-- Modelled from the spec: `fn_extrair_hotspots`, the PostGIS change-detection
run, is not in `src/` (only its caller `processar_delta` is).  Per spec §4.2,
§4.7 and §7: comparison requires `srid != 0` of both snapshots
(`MissingProjectionError` otherwise) and equal srids
(`ProjectionMismatchError` otherwise); the run is atomic — on success all rows
for the pair are appended together and their count returned, on any failure
the store is left unchanged. -/
def fn_extrair_hotspots {G : Type} (srid1 srid2 : Int)
    (stages : List (Except EngineError (List (HotspotRow G))))
    (store : List (HotspotRow G)) :
    List (HotspotRow G) × Except EngineError Nat :=
  if srid1 = 0 ∨ srid2 = 0 then (store, .error .missingProjectionError)
  else if srid1 ≠ srid2 then (store, .error .projectionMismatchError)
  else
    match runStages stages with
    | .error e => (store, .error e)
    | .ok rows => (store ++ rows, .ok rows.length)

/-- The response of `upload`: a fail flash/JSON or a success flash/JSON. -/
inductive UploadResponse
  | fail (msg : String)
  | ok (msg : String)
deriving Repr, DecidableEq

/-- The guards of `upload` before the file is saved, in source order:
missing file part, empty filename, missing/non-digit year, disallowed
extension.  Returns the failure message, or `none` when the request reaches
`file.save`. -/
def upload_precheck (hasFilePart : Bool) (filename : String) (ano : String) :
    Option String :=
  if !hasFilePart then some "Nenhum arquivo selecionado."
  else if filename == "" then some "Nenhum arquivo selecionado."
  else if ano == "" || !pyIsdigit ano then some "Informe o ano do raster (ex: 2020)."
  else if !allowed_file filename then some "Formato não suportado. Use TIFF, PNG ou JPEG."
  else none

/-- The success message of `upload`. -/
def uploadSuccessMsg (filename : String) (ano : Int) (newId : Int) : String :=
  "Raster '" ++ filename ++ "' (ano " ++ toString ano ++ ") enviado com sucesso! ID: " ++
    toString newId

/-- The `try` block of `upload` after `file.save`: metadata extraction,
thumbnailing and the INSERT may each raise; the first raise is caught by the
`except` clause. -/
def upload_try (metaR : Except String Metadata) (thumbR : Except String (List Nat))
    (dbR : Except String Int) (filename : String) (ano : Int) : UploadResponse :=
  match metaR with
  | .error e => .fail ("Erro ao processar: " ++ e)
  | .ok _ =>
    match thumbR with
    | .error e => .fail ("Erro ao processar: " ++ e)
    | .ok _ =>
      match dbR with
      | .error e => .fail ("Erro ao processar: " ++ e)
      | .ok newId => .ok (uploadSuccessMsg filename ano newId)

/-- The `finally` clause of `upload`:
`if os.path.exists(filepath): os.remove(filepath)`. -/
def upload_finally (fileOnDisk : Bool) : Bool :=
  if fileOnDisk then false else fileOnDisk

/-- `upload` from `file.save(filepath)` on: the save puts the temporary file
on disk; the `try` block runs to its first raise (or to success); the
`finally` clause runs before the response is returned.  The first component
is whether the temporary file is still on disk when the response goes out. -/
def upload_after_save (metaR : Except String Metadata)
    (thumbR : Except String (List Nat)) (dbR : Except String Int)
    (filename : String) (ano : Int) : Bool × UploadResponse :=
  let fileOnDisk := true
  let resp := upload_try metaR thumbR dbR filename ano
  (upload_finally fileOnDisk, resp)

/-- A concrete store row over the trivial geometry type, for evaluations. -/
def sampleRow (tc : Int) (area : ℚ) : HotspotRow Unit :=
  { id := 1
    ano_inicio := 2020
    ano_fim := 2021
    classe_origem := 3
    classe_destino := 15
    codigo_transicao := tc
    area_ha := area
    geom := ()
    data_processamento := "t1" }

/-! ### General lemmas about the embedded operations -/

theorem sortByAreaDesc_perm {G : Type} (l : List (HotspotRow G)) :
    List.Perm (sortByAreaDesc l) l :=
  List.perm_insertionSort _ l

theorem sortByAreaDesc_sorted {G : Type} (l : List (HotspotRow G)) :
    List.Sorted (areaGe (G := G)) (sortByAreaDesc l) :=
  List.sorted_insertionSort _ l

theorem length_sortByAreaDesc {G : Type} (l : List (HotspotRow G)) :
    (sortByAreaDesc l).length = l.length :=
  List.length_insertionSort _ l

theorem rowMatches_zero_transicao {G : Type} (a b : Option Int) :
    rowMatches (G := G) (some 0) a b = rowMatches none a b := by
  funext r; rfl

theorem rowMatches_zero_ano_ini {G : Type} (c b : Option Int) :
    rowMatches (G := G) c (some 0) b = rowMatches c none b := by
  funext r; rfl

theorem rowMatches_zero_ano_fim {G : Type} (c a : Option Int) :
    rowMatches (G := G) c a (some 0) = rowMatches c a none := by
  funext r; rfl

/-! ### Claim theorems -/

/-- C9: `/processar-delta` enforces two preconditions before invoking
detection: a missing (or 0) snapshot id, or two equal ids, is rejected with
an error flash; the detection function is never called — for every possible
`run` the store is returned unchanged. -/
theorem processar_delta_guards {G : Type}
    (run : Int → Int → List (HotspotRow G) → List (HotspotRow G) × Except String Nat)
    (t1_id t2_id : Option Int) (store : List (HotspotRow G)) :
    (pyTruthy t1_id = false ∨ pyTruthy t2_id = false →
      processar_delta run t1_id t2_id store =
        (store, Flash.error "Selecione dois rasters para comparar.")) ∧
    (t1_id = t2_id → pyTruthy t1_id = true →
      processar_delta run t1_id t2_id store =
        (store, Flash.error "Selecione dois rasters diferentes.")) := by
  constructor
  · intro h
    rcases h with h | h <;> simp [processar_delta, h]
  · intro heq ht
    subst heq
    simp [processar_delta, ht]

/-- Witness for C9 at a concrete input: id 0 with id 3 is rejected with the
"select two rasters" error and an unchanged store, for a run that would
report 7 hotspots. -/
theorem processar_delta_guards_witness :
    processar_delta (G := Unit) (fun _ _ s => (s, Except.ok 7)) (some 0) (some 3) [] =
      ([], Flash.error "Selecione dois rasters para comparar.") :=
  (processar_delta_guards (fun _ _ s => (s, Except.ok 7)) (some 0) (some 3) []).1
    (Or.inl (by decide))

/-- C10: for every upload that reaches the file-save step, the `finally`
clause removes the temporary file before the response goes out, whether the
try block succeeds or metadata extraction, thumbnailing or the INSERT raises;
the response itself is exactly the try block's outcome. -/
theorem upload_temp_file_removed (metaR : Except String Metadata)
    (thumbR : Except String (List Nat)) (dbR : Except String Int)
    (filename : String) (ano : Int) :
    (upload_after_save metaR thumbR dbR filename ano).1 = false ∧
    (upload_after_save metaR thumbR dbR filename ano).2 =
      upload_try metaR thumbR dbR filename ano :=
  ⟨rfl, rfl⟩

/-- C1: with two valid (nonzero, distinct) snapshot identifiers,
`/processar-delta` flashes the count returned by the detection run as a
success — a zero count included — and flashes an error when the run raises. -/
theorem processar_delta_reports_count_or_error {G : Type}
    (run : Int → Int → List (HotspotRow G) → List (HotspotRow G) × Except String Nat)
    (a b : Int) (store s2 : List (HotspotRow G))
    (ha : a ≠ 0) (hb : b ≠ 0) (hab : a ≠ b) :
    (∀ n : Nat, run a b store = (s2, Except.ok n) →
      processar_delta run (some a) (some b) store =
        (s2, Flash.success (deltaSuccessMsg n))) ∧
    (∀ e : String, run a b store = (s2, Except.error e) →
      processar_delta run (some a) (some b) store =
        (s2, Flash.error (deltaErrorMsg e))) := by
  have h1 : pyTruthy (some a) = true := by simp [pyTruthy, ha]
  have h2 : pyTruthy (some b) = true := by simp [pyTruthy, hb]
  have h3 : ((some a : Option Int) == some b) = false := by
    simp [hab]
  constructor
  · intro n h
    simp [processar_delta, h1, h2, h3, h]
  · intro e h
    simp [processar_delta, h1, h2, h3, h]

/-- Witness for C1 at a concrete input: ids 1 and 2, a detection run finding
zero changed pixels; the route reports success with a count of zero. -/
theorem processar_delta_reports_count_or_error_witness :
    processar_delta (G := Unit) (fun _ _ s => (s, Except.ok 0)) (some 1) (some 2) [] =
      ([], Flash.success (deltaSuccessMsg 0)) :=
  (processar_delta_reports_count_or_error (fun _ _ s => (s, Except.ok 0)) 1 2 [] []
    (by decide) (by decide) (by decide)).1 0 rfl

/-- C3: a raster with no readable projection is recorded with srid 0 (the
rasterio branch with `crs = None`, and the Pillow fallback), and a
change-detection run in which either snapshot has srid 0 is rejected with
`MissingProjectionError` before any hotspot is produced (store unchanged). -/
theorem srid_zero_blocks_comparison {G : Type} (info : RasterioInfo) (img : PillowInfo)
    (hcrs : info.crs = none) (srid2 : Int)
    (stages : List (Except EngineError (List (HotspotRow G))))
    (store : List (HotspotRow G)) :
    storedSrid (extract_metadata (FileReadResult.rasterio info)) = 0 ∧
    storedSrid (extract_metadata (FileReadResult.pillow img)) = 0 ∧
    fn_extrair_hotspots 0 srid2 stages store =
      (store, Except.error EngineError.missingProjectionError) ∧
    fn_extrair_hotspots srid2 0 stages store =
      (store, Except.error EngineError.missingProjectionError) := by
  refine ⟨?_, rfl, ?_, ?_⟩
  · simp [extract_metadata, storedSrid, hcrs]
  · simp [fn_extrair_hotspots]
  · simp [fn_extrair_hotspots]

/-- Witness for C3 at a concrete input: a CRS-less GeoTIFF and a PNG both get
srid 0, and a run against srid 4326 on either side is blocked with the store
unchanged. -/
theorem srid_zero_blocks_comparison_witness :
    storedSrid (extract_metadata (FileReadResult.rasterio ⟨10, 10, 1, "GTiff", none⟩)) = 0 ∧
    storedSrid (extract_metadata (FileReadResult.pillow ⟨10, 10, some "PNG", 3⟩)) = 0 ∧
    fn_extrair_hotspots (G := Unit) 0 4326 [Except.ok [sampleRow 7 5]] [] =
      ([], Except.error EngineError.missingProjectionError) ∧
    fn_extrair_hotspots (G := Unit) 4326 0 [Except.ok [sampleRow 7 5]] [] =
      ([], Except.error EngineError.missingProjectionError) :=
  srid_zero_blocks_comparison ⟨10, 10, 1, "GTiff", none⟩ ⟨10, 10, some "PNG", 3⟩ rfl 4326
    [Except.ok [sampleRow 7 5]] []

/-- C2: the detection run is atomic from the store's perspective — if
`fn_extrair_hotspots` reports an error the store is exactly what it was
before the run, and if it reports a count the store is the old store plus the
complete output of the run, whose length is the reported count. -/
theorem fn_extrair_hotspots_atomic {G : Type} (srid1 srid2 : Int)
    (stages : List (Except EngineError (List (HotspotRow G))))
    (store s2 : List (HotspotRow G)) :
    (∀ e : EngineError,
      fn_extrair_hotspots srid1 srid2 stages store = (s2, Except.error e) → s2 = store) ∧
    (∀ n : Nat,
      fn_extrair_hotspots srid1 srid2 stages store = (s2, Except.ok n) →
        ∃ rows, runStages stages = Except.ok rows ∧ s2 = store ++ rows ∧ n = rows.length) := by
  constructor
  · intro e h
    unfold fn_extrair_hotspots at h
    split at h
    · exact ((Prod.mk.injEq _ _ _ _).mp h).1.symm
    · split at h
      · exact ((Prod.mk.injEq _ _ _ _).mp h).1.symm
      · split at h
        · exact ((Prod.mk.injEq _ _ _ _).mp h).1.symm
        · exact absurd ((Prod.mk.injEq _ _ _ _).mp h).2 (by simp)
  · intro n h
    unfold fn_extrair_hotspots at h
    split at h
    · exact absurd ((Prod.mk.injEq _ _ _ _).mp h).2 (by simp)
    · split at h
      · exact absurd ((Prod.mk.injEq _ _ _ _).mp h).2 (by simp)
      · split at h
        · exact absurd ((Prod.mk.injEq _ _ _ _).mp h).2 (by simp)
        · rename_i rows heq
          obtain ⟨h1, h2⟩ := (Prod.mk.injEq _ _ _ _).mp h
          exact ⟨rows, heq, h1.symm, (Except.ok.injEq _ _ ▸ h2 : rows.length = n).symm⟩

/-- Witness for C2 at a concrete input: a run of one successful stage over an
empty store commits exactly that stage's row and reports count 1. -/
theorem fn_extrair_hotspots_atomic_witness :
    ∃ rows, runStages [Except.ok [sampleRow 7 5]] = Except.ok rows ∧
      [sampleRow 7 5] = [] ++ rows ∧ 1 = rows.length :=
  (fn_extrair_hotspots_atomic 4326 4326 [Except.ok [sampleRow 7 5]] [] [sampleRow 7 5]).2 1 rfl

/-- C8: in both `/hotspots` and `/hotspots/geojson`, a supplied parameter
value of 0 (transacao, ano_inicio or ano_fim) adds no WHERE condition: the
response equals the one for the omitted parameter. -/
theorem zero_parameter_treated_as_absent {G : Type} (simplify : ℚ → G → G)
    (store : List (HotspotRow G)) (legend : List LegendRow) (a b l : Option Int)
    (tol : Option ℚ) :
    (hotspots store legend (some 0) a b l = hotspots store legend none a b l) ∧
    (hotspots store legend a (some 0) b l = hotspots store legend a none b l) ∧
    (hotspots store legend a b (some 0) l = hotspots store legend a b none l) ∧
    (hotspots_geojson simplify store legend (some 0) a b l tol =
      hotspots_geojson simplify store legend none a b l tol) ∧
    (hotspots_geojson simplify store legend a (some 0) b l tol =
      hotspots_geojson simplify store legend a none b l tol) ∧
    (hotspots_geojson simplify store legend a b (some 0) l tol =
      hotspots_geojson simplify store legend a b none l tol) := by
  refine ⟨?_, ?_, ?_, ?_, ?_, ?_⟩ <;>
    simp only [hotspots, hotspots_geojson, rowMatches_zero_transicao,
      rowMatches_zero_ano_ini, rowMatches_zero_ano_fim]

/-- C4 fails as stated: with the filter value `transacao = 0` supplied, the
stored row whose `codigo_transicao` is 7 is still returned (the route drops
falsy filters), so the returned rows are not those matching a
`transition_code = 0` filter. -/
theorem hotspots_zero_filter_counterexample :
    (hotspots [sampleRow 7 5] [] (some 0) none none none).map
        HotspotView.codigo_transicao = [7] ∧
    ¬ (∀ v ∈ hotspots [sampleRow 7 5] [] (some 0) none none none,
        v.codigo_transicao = 0) := by
  decide

/-- C4 (amended): the `/hotspots` response consists exactly of views of the
stored rows passing the filters — each filter applied only when supplied with
a nonzero value — sorted by `area_ha` descending, truncated to the
result-count limit (default 100): every returned row is a matching stored
row, the response is sorted, its length is `min limit #matching`, and when
all matching rows fit under the limit each appears in the response. -/
theorem hotspots_query_correct {G : Type} (store : List (HotspotRow G))
    (legend : List LegendRow) (codigo ano_ini ano_fim limit : Option Int) :
    (∀ v ∈ hotspots store legend codigo ano_ini ano_fim limit,
      ∃ r, r ∈ store ∧ rowMatches codigo ano_ini ano_fim r = true ∧
        v = toView legend r) ∧
    List.Sorted (fun u v : HotspotView => v.area_ha ≤ u.area_ha)
      (hotspots store legend codigo ano_ini ano_fim limit) ∧
    (hotspots store legend codigo ano_ini ano_fim limit).length =
      min (limit.getD 100).toNat
        (store.filter (rowMatches codigo ano_ini ano_fim)).length ∧
    ((store.filter (rowMatches codigo ano_ini ano_fim)).length ≤
        (limit.getD 100).toNat →
      ∀ r ∈ store, rowMatches codigo ano_ini ano_fim r = true →
        toView legend r ∈ hotspots store legend codigo ano_ini ano_fim limit) := by
  refine ⟨?_, ?_, ?_, ?_⟩
  · intro v hv
    simp only [hotspots, List.mem_map] at hv
    obtain ⟨r, hr, rfl⟩ := hv
    have hr3 : r ∈ store.filter (rowMatches codigo ano_ini ano_fim) :=
      ((sortByAreaDesc_perm _).mem_iff).mp (List.mem_of_mem_take hr)
    rw [List.mem_filter] at hr3
    exact ⟨r, hr3.1, hr3.2, rfl⟩
  · have hs := sortByAreaDesc_sorted (store.filter (rowMatches codigo ano_ini ano_fim))
    have ht : List.Sorted (areaGe (G := G))
        ((sortByAreaDesc (store.filter (rowMatches codigo ano_ini ano_fim))).take
          (limit.getD 100).toNat) :=
      List.Pairwise.sublist (List.take_sublist _ _) hs
    simp only [hotspots, List.Sorted, List.pairwise_map]
    exact ht.imp (fun h => h)
  · simp [hotspots, List.length_take, length_sortByAreaDesc]
  · intro hle r hr hm
    have htake : (sortByAreaDesc (store.filter (rowMatches codigo ano_ini ano_fim))).take
        (limit.getD 100).toNat =
        sortByAreaDesc (store.filter (rowMatches codigo ano_ini ano_fim)) :=
      List.take_of_length_le (by rw [length_sortByAreaDesc]; exact hle)
    simp only [hotspots, htake, List.mem_map]
    refine ⟨r, ?_, rfl⟩
    rw [(sortByAreaDesc_perm _).mem_iff, List.mem_filter]
    exact ⟨hr, hm⟩

/-- Witness for C4 (amended) at a concrete input: two stored rows, no
filters, limit defaulted — the response length is `min 100 2`. -/
theorem hotspots_query_correct_witness :
    (hotspots [sampleRow 7 5, sampleRow 9 8] [] none none none none).length =
      min ((none : Option Int).getD 100).toNat
        ([sampleRow 7 5, sampleRow 9 8].filter (rowMatches none none none)).length :=
  (hotspots_query_correct [sampleRow 7 5, sampleRow 9 8] [] none none none none).2.2.1

/-- C5: the `/hotspots/geojson` response has at most `limit` features
(request default 5000), the features are ordered by `area_ha` descending
(so the cap keeps the largest), each feature's geometry is the stored
geometry passed through the simplifier at the caller tolerance (request
default 0.001), and an empty match yields the empty feature list rather than
an error. -/
theorem hotspots_geojson_contract {G : Type} (simplify : ℚ → G → G)
    (store : List (HotspotRow G)) (legend : List LegendRow)
    (codigo ano_ini ano_fim limit : Option Int) (tol : Option ℚ) :
    (hotspots_geojson simplify store legend codigo ano_ini ano_fim limit tol).features.length ≤
      (limit.getD 5000).toNat ∧
    List.Sorted (fun f g : Feature G => g.area_ha ≤ f.area_ha)
      (hotspots_geojson simplify store legend codigo ano_ini ano_fim limit tol).features ∧
    (store.filter (rowMatches codigo ano_ini ano_fim) = [] →
      (hotspots_geojson simplify store legend codigo ano_ini ano_fim limit tol).features =
        []) ∧
    (∀ f ∈ (hotspots_geojson simplify store legend codigo ano_ini ano_fim limit tol).features,
      ∃ r, r ∈ store ∧ rowMatches codigo ano_ini ano_fim r = true ∧
        f.geometry = simplify (tol.getD (1 / 1000)) r.geom) := by
  refine ⟨?_, ?_, ?_, ?_⟩
  · simp only [hotspots_geojson, List.length_map, List.length_take]
    exact min_le_left _ _
  · have hs := sortByAreaDesc_sorted (store.filter (rowMatches codigo ano_ini ano_fim))
    have ht : List.Sorted (areaGe (G := G))
        ((sortByAreaDesc (store.filter (rowMatches codigo ano_ini ano_fim))).take
          (limit.getD 5000).toNat) :=
      List.Pairwise.sublist (List.take_sublist _ _) hs
    simp only [hotspots_geojson, List.Sorted, List.pairwise_map]
    exact ht.imp (fun h => h)
  · intro h
    simp [hotspots_geojson, h, sortByAreaDesc, List.insertionSort]
  · intro f hf
    simp only [hotspots_geojson, List.mem_map] at hf
    obtain ⟨r, hr, rfl⟩ := hf
    have hr3 : r ∈ store.filter (rowMatches codigo ano_ini ano_fim) :=
      ((sortByAreaDesc_perm _).mem_iff).mp (List.mem_of_mem_take hr)
    rw [List.mem_filter] at hr3
    exact ⟨r, hr3.1, hr3.2, rfl⟩

/-- Witness for C5 at a concrete input: an empty store matches nothing and
the route returns the empty FeatureCollection. -/
theorem hotspots_geojson_contract_witness :
    (hotspots_geojson (G := Unit) (fun _ g => g) [] [] none none none none none).features =
      [] :=
  (hotspots_geojson_contract (fun _ g => g) [] [] none none none none none).2.2.1 rfl

/-- C6: every emitted feature carries the stored `area_ha` of its row while
its geometry is the simplified one, and the list of reported areas does not
depend on the simplification function at all — the area is never recomputed
from the simplified geometry. -/
theorem geojson_area_not_resimplified {G : Type} (simplify simplify2 : ℚ → G → G)
    (store : List (HotspotRow G)) (legend : List LegendRow)
    (codigo ano_ini ano_fim limit : Option Int) (tol : Option ℚ) :
    (∀ f ∈ (hotspots_geojson simplify store legend codigo ano_ini ano_fim limit tol).features,
      ∃ r, r ∈ store ∧ f.area_ha = r.area_ha ∧
        f.geometry = simplify (tol.getD (1 / 1000)) r.geom) ∧
    (hotspots_geojson simplify store legend codigo ano_ini ano_fim limit tol).features.map
        Feature.area_ha =
      (hotspots_geojson simplify2 store legend codigo ano_ini ano_fim limit tol).features.map
        Feature.area_ha := by
  constructor
  · intro f hf
    simp only [hotspots_geojson, List.mem_map] at hf
    obtain ⟨r, hr, rfl⟩ := hf
    have hr3 : r ∈ store.filter (rowMatches codigo ano_ini ano_fim) :=
      ((sortByAreaDesc_perm _).mem_iff).mp (List.mem_of_mem_take hr)
    exact ⟨r, (List.mem_filter.mp hr3).1, rfl, rfl⟩
  · simp only [hotspots_geojson, List.map_map]
    rfl

/-- Witness for C6 at a concrete input: the single emitted feature of a
one-row store carries that row's stored area. -/
theorem geojson_area_not_resimplified_witness :
    ∃ r, r ∈ [sampleRow 7 5] ∧
      (toFeature (G := Unit) (fun _ g => g) ((none : Option ℚ).getD (1 / 1000)) []
        (sampleRow 7 5)).area_ha = r.area_ha ∧
      (toFeature (G := Unit) (fun _ g => g) ((none : Option ℚ).getD (1 / 1000)) []
        (sampleRow 7 5)).geometry =
        (fun _ g => g) ((none : Option ℚ).getD (1 / 1000)) r.geom :=
  (geojson_area_not_resimplified (fun _ g => g) (fun _ _ => ()) [sampleRow 7 5] []
    none none none none none).1 _ (by decide)

/-- C7 fails as stated: "raster.img" names a GDAL-readable raster container
(ERDAS Imagine), yet the upload guard rejects the file purely by its
filename extension. -/
theorem upload_rejects_gdal_container :
    upload_precheck true "raster.img" "2020" =
      some "Formato não suportado. Use TIFF, PNG ou JPEG." ∧
    allowed_file "raster.img" = false := by
  decide

/-- C7 (amended): the upload accepts a file past its guards exactly when the
filename contains a dot and its lowercased extension after the last dot is
in the fixed whitelist tif/tiff/png/jpg/jpeg; any other container is
rejected by filename, whatever its content. -/
theorem upload_extension_whitelist (filename ano : String)
    (hname : filename ≠ "") (hano1 : ano ≠ "") (hano2 : pyIsdigit ano = true) :
    (upload_precheck true filename ano = none ↔ allowed_file filename = true) ∧
    (allowed_file filename = true ↔
      (filename.data.contains '.' = true ∧
        lowerStr (extAfterLastDot filename) ∈ ALLOWED_EXTENSIONS)) := by
  constructor
  · have h1 : (filename == "") = false := beq_eq_false_iff_ne.mpr hname
    have h2 : (ano == "") = false := beq_eq_false_iff_ne.mpr hano1
    unfold upload_precheck
    simp only [h1, h2, hano2, Bool.not_true, Bool.false_or, Bool.not_false, if_false,
      if_true, Bool.false_eq_true, Bool.or_self]
    cases h : allowed_file filename <;> simp [h]
  · simp [allowed_file, Bool.and_eq_true, List.contains, List.elem_iff]

/-- Witness for C7 (amended) at a concrete input: "mapa.tif" with year 2020
passes the guards exactly because its extension is whitelisted. -/
theorem upload_extension_whitelist_witness :
    upload_precheck true "mapa.tif" "2020" = none ↔ allowed_file "mapa.tif" = true :=
  (upload_extension_whitelist "mapa.tif" "2020" (by decide) (by decide) (by decide)).1

end SBBD
